import Mathlib

/-!
Shallow embedding of the CAN connection-lifecycle code of CANopenTerm
(src/can.c, src/sdo_client.c).  Machine integers are modelled as `Nat`;
an explicit `% 2 ^ w` appears exactly where the C narrows a value.
Calls into the PCANBasic driver and SDL are recorded as `Action`s; the
values the driver returns are passed in explicitly (`DriverResp`), since
the driver itself is an external collaborator.
-/

namespace CANopenTerm

/-! ### Driver constants (PCANBasic.h) -/

def PCAN_MESSAGE_STANDARD : Nat := 0x00
def PCAN_ERROR_OK : Nat := 0x00000
def PCAN_ERROR_ILLHW : Nat := 0x01400

def PCAN_BAUD_1M : Nat := 0x0014
def PCAN_BAUD_800K : Nat := 0x0016
def PCAN_BAUD_500K : Nat := 0x001C
def PCAN_BAUD_250K : Nat := 0x011C
def PCAN_BAUD_125K : Nat := 0x031C
def PCAN_BAUD_100K : Nat := 0x432F
def PCAN_BAUD_95K : Nat := 0xC34E
def PCAN_BAUD_83K : Nat := 0x852B
def PCAN_BAUD_50K : Nat := 0x472F
def PCAN_BAUD_47K : Nat := 0x1414
def PCAN_BAUD_33K : Nat := 0x8B2F
def PCAN_BAUD_20K : Nat := 0x532F
def PCAN_BAUD_10K : Nat := 0x672F
def PCAN_BAUD_5K : Nat := 0x7F7F

/-- Language argument of every CAN_GetErrorText call in the source. -/
def err_language : Nat := 0x09

/-! ### Data model -/

/-- `can_message_t` (can.h): `Uint16 id; Uint8 length; Uint8 data[8];`. -/
structure can_message_t where
  id : Nat
  length : Nat
  data : Fin 8 → Nat
deriving DecidableEq

/-- `TPCANMsg` (PCANBasic.h): `DWORD ID; BYTE MSGTYPE; BYTE LEN; BYTE DATA[8];`. -/
structure TPCANMsg where
  ID : Nat
  MSGTYPE : Nat
  LEN : Nat
  DATA : Fin 8 → Nat
deriving DecidableEq

inductive LogLevel where
  | success
  | warning
deriving DecidableEq

/-- One recorded call into the PCANBasic driver or SDL/console layer. -/
inductive Action where
  | createThread
  | detachThread
  | driverOpen (baud : Nat)
  | driverClose
  | driverGetStatus
  | driverErrorText (status : Nat) (lang : Nat)
  | driverWrite (m : TPCANMsg)
  | driverRead
  | log (level : LogLevel) (msg : String)
  | printPrompt
  | delay (ms : Nat)
deriving DecidableEq

/-- The fields of `core_t` (core.h) that the CAN code touches. -/
structure core_t where
  is_running : Bool
  is_can_initialised : Bool
  baud_rate : Nat
  can_status : Nat
deriving DecidableEq

/-- What the driver would answer this step: the status of a
CAN_Initialize attempt and the status of a CAN_GetStatus poll. -/
structure DriverResp where
  initStatus : Nat
  pollStatus : Nat
deriving DecidableEq

/-! ### Frame codec (the bodies of can_write / can_read, src/can.c:62-96) -/

/-- The TPCANMsg that `can_write` builds from a `can_message_t`
(src/can.c:65-74): ID, STANDARD type, LEN, all 8 DATA bytes copied. -/
def can_write_wire (message : can_message_t) : TPCANMsg :=
  { ID := message.id
    MSGTYPE := PCAN_MESSAGE_STANDARD
    LEN := message.length
    DATA := fun index => message.data index }

/-- `can_write` (src/can.c:62-77): builds the wire frame and calls
CAN_Write unconditionally; returns the driver status cast to Uint32.
The status the driver would return is the explicit `st` argument. -/
def can_write (message : can_message_t) (st : Nat) : Nat × List Action :=
  (st % 2 ^ 32, [Action.driverWrite (can_write_wire message)])

/-- The `can_message_t` that `can_read` extracts from a TPCANMsg
(src/can.c:87-93): the DWORD ID is narrowed into the Uint16 id field. -/
def can_read_decode (w : TPCANMsg) : can_message_t :=
  { id := w.ID % 2 ^ 16
    length := w.LEN
    data := fun index => w.DATA index }

/-- `can_read` (src/can.c:79-96): calls CAN_Read, decodes the received
wire frame (`w`, with driver status `st`) into the message. -/
def can_read (w : TPCANMsg) (st : Nat) : can_message_t × Nat :=
  (can_read_decode w, st)

/-! ### Channel / lifecycle API over a possibly-NULL core pointer -/

/-- `is_can_initialised` (src/can.c:211-219). -/
def is_can_initialised : Option core_t → Bool
  | none => false
  | some core => core.is_can_initialised

/-- `can_init` (src/can.c:24-32): NULL-checks, then spawns the monitor
thread. -/
def can_init : Option core_t → Option core_t × List Action
  | none => (none, [])
  | some core => (some core, [Action.createThread])

/-- `can_deinit` (src/can.c:34-45): NULL-checks, clears the status and
the initialised flag, releases the handle. -/
def can_deinit : Option core_t → Option core_t × List Action
  | none => (none, [])
  | some core =>
      (some { core with can_status := 0, is_can_initialised := false },
       [Action.driverClose])

/-- `can_quit` (src/can.c:47-60): NULL-checks, deinitialises when
initialised, detaches the monitor thread. -/
def can_quit : Option core_t → Option core_t × List Action
  | none => (none, [])
  | some core =>
      if is_can_initialised (some core) then
        let r := can_deinit (some core)
        (r.1, r.2 ++ [Action.detachThread])
      else
        (some core, [Action.detachThread])

/-- `can_set_baud_rate` (src/can.c:98-111): NULL-checks, stores the
Uint8 command as the new baud-rate index, then deinitialises when the
channel is currently initialised. -/
def can_set_baud_rate (command : Nat) : Option core_t → Option core_t × List Action
  | none => (none, [])
  | some core =>
      let core2 := { core with baud_rate := command % 2 ^ 8 }
      if is_can_initialised (some core2) then
        can_deinit (some core2)
      else
        (some core2, [])

/-! ### SDO client (src/sdo_client.c) -/

/-- The TPCANMsg that `write_sdo` builds (src/sdo_client.c:25-32): node
ids above 0x7f are reduced modulo 0x7f, the id is 0x600 + node_id, the
length is the data_type value; DATA is never written (uninitialised
stack memory), modelled by the explicit `junk` argument. -/
def write_sdo_msg (data_type : Nat) (node_id : Nat) (junk : Fin 8 → Nat) : TPCANMsg :=
  let nid := node_id % 2 ^ 8
  let nid := if nid > 0x7f then 0x00 + nid % 0x7f else nid
  { ID := 0x600 + nid
    MSGTYPE := PCAN_MESSAGE_STANDARD
    LEN := data_type % 2 ^ 8
    DATA := junk }

/-- `write_sdo` (src/sdo_client.c:20-48): builds the message, writes it,
logs a warning when the driver status is not PCAN_ERROR_OK, and returns
the driver status. -/
def write_sdo (data_type : Nat) (node_id : Nat) (junk : Fin 8 → Nat) (st : Nat) :
    Nat × List Action :=
  let msg := write_sdo_msg data_type node_id junk
  if st ≠ PCAN_ERROR_OK then
    (st, [Action.driverWrite msg, Action.driverErrorText st err_language,
          Action.log LogLevel.warning "Could not write SDO"])
  else
    (st, [Action.driverWrite msg])

/-! ### The monitor loop (src/can.c:221-320) -/

/-- The switch over `core->baud_rate` (src/can.c:239-284).  Case 3
shares its body with `default`, so every index above 13 selects
PCAN_BAUD_250K. -/
def select_baud_rate (idx : Nat) : Nat :=
  match idx with
  | 0 => PCAN_BAUD_1M
  | 1 => PCAN_BAUD_800K
  | 2 => PCAN_BAUD_500K
  | 3 => PCAN_BAUD_250K
  | 4 => PCAN_BAUD_125K
  | 5 => PCAN_BAUD_100K
  | 6 => PCAN_BAUD_95K
  | 7 => PCAN_BAUD_83K
  | 8 => PCAN_BAUD_50K
  | 9 => PCAN_BAUD_47K
  | 10 => PCAN_BAUD_33K
  | 11 => PCAN_BAUD_20K
  | 12 => PCAN_BAUD_10K
  | 13 => PCAN_BAUD_5K
  | _ => PCAN_BAUD_250K

/-- The 14-entry baud-rate table of the spec, index 0 = 1 MBit/s down
to index 13 = 5 kBit/s. -/
def baud_table : List Nat :=
  [PCAN_BAUD_1M, PCAN_BAUD_800K, PCAN_BAUD_500K, PCAN_BAUD_250K,
   PCAN_BAUD_125K, PCAN_BAUD_100K, PCAN_BAUD_95K, PCAN_BAUD_83K,
   PCAN_BAUD_50K, PCAN_BAUD_47K, PCAN_BAUD_33K, PCAN_BAUD_20K,
   PCAN_BAUD_10K, PCAN_BAUD_5K]

/-- Control location inside `can_monitor`'s loops: about to evaluate the
outer `while (is_running)` test, about to evaluate the inner
`while (!is_can_initialised)` test, or returned. -/
inductive Loc where
  | outerTest
  | innerTest
  | exited
deriving DecidableEq

structure MonitorConfig where
  core : core_t
  loc : Loc
deriving DecidableEq

/-- One step of `can_monitor` (src/can.c:233-317).  A step from
`innerTest` is one tick (it ends in SDL_Delay(10)): either an open
attempt (src/can.c:235-303) or a status poll (src/can.c:305-316).  A
step from `outerTest` is just the loop test. -/
def monitorStep (r : DriverResp) (c : MonitorConfig) : MonitorConfig × List Action :=
  match c.loc with
  | Loc.exited => (c, [])
  | Loc.outerTest =>
      if c.core.is_running then
        ({ c with loc := Loc.innerTest }, [])
      else
        ({ c with loc := Loc.exited }, [])
  | Loc.innerTest =>
      if is_can_initialised (some c.core) then
        let core1 := { c.core with can_status := r.pollStatus }
        if PCAN_ERROR_ILLHW == core1.can_status then
          ({ core := { core1 with can_status := 0, is_can_initialised := false },
             loc := Loc.outerTest },
           [Action.driverGetStatus, Action.driverClose,
            Action.log LogLevel.warning "CAN de-initialised: USB-dongle removed?",
            Action.printPrompt, Action.delay 10])
        else
          ({ core := core1, loc := Loc.outerTest },
           [Action.driverGetStatus, Action.delay 10])
      else
        let baud := select_baud_rate c.core.baud_rate
        let core1 := { c.core with can_status := r.initStatus }
        if Nat.land core1.can_status PCAN_ERROR_OK == core1.can_status then
          ({ core := { core1 with is_can_initialised := true }, loc := Loc.innerTest },
           [Action.driverOpen baud, Action.driverErrorText core1.can_status err_language,
            Action.log LogLevel.success "CAN successfully initialised",
            Action.printPrompt, Action.delay 10])
        else
          ({ core := core1, loc := Loc.innerTest },
           [Action.driverOpen baud, Action.driverErrorText core1.can_status err_language,
            Action.delay 10])

/-- Entry of `can_monitor` for a non-NULL core (src/can.c:231): the
baud-rate index is set to 3 before the loop is entered. -/
def monitorStart (core : core_t) : MonitorConfig :=
  { core := { core with baud_rate := 3 }, loc := Loc.outerTest }

/-- Iterate `monitorStep` n times with the same driver response. -/
def monitorIter (r : DriverResp) : Nat → MonitorConfig → MonitorConfig
  | 0, c => c
  | n + 1, c => monitorIter r n (monitorStep r c).1

/-! ### Theorems -/

/-- Auxiliary: masking with PCAN_ERROR_OK (= 0) yields 0, so the success
test of the open attempt holds exactly for status 0. -/
theorem land_ok_eq_zero (x : Nat) : Nat.land x PCAN_ERROR_OK = 0 := Nat.and_zero x

/-- C6: for every valid frame (id 0-0x7FF, length 0-8, byte payload),
decoding the wire frame produced by the write path with the read path
yields the original frame. -/
theorem codec_round_trip (m : can_message_t)
    (hid : m.id ≤ 0x7FF) (hlen : m.length ≤ 8) (hdata : ∀ i, m.data i < 2 ^ 8) :
    can_read_decode (can_write_wire m) = m := by
  show (⟨m.id % 2 ^ 16, m.length, fun i => m.data i⟩ : can_message_t) = m
  have h : m.id % 2 ^ 16 = m.id := Nat.mod_eq_of_lt (by omega)
  rw [h]

theorem codec_round_trip_witness :
    (0x123 ≤ 0x7FF ∧ (8 : Nat) ≤ 8 ∧ ∀ i : Fin 8, (7 : Nat) < 2 ^ 8) ∧
    can_read_decode (can_write_wire ⟨0x123, 8, fun _ => 7⟩) = ⟨0x123, 8, fun _ => 7⟩ :=
  ⟨⟨by decide, by decide, fun i => by decide⟩,
   codec_round_trip ⟨0x123, 8, fun _ => 7⟩ (by decide) (by decide)
     (fun i => (by decide : (7 : Nat) < 2 ^ 8))⟩

/-- C7 counterexample: the frame with identifier 0x800 (outside the
standard 11-bit range) is neither rejected nor clamped; its identifier
reaches the wire frame unchanged and the write still calls the driver. -/
theorem can_write_oob_id_cex :
    ¬(can_write_wire ⟨0x800, 8, fun _ => 0⟩).ID ≤ 0x7FF ∧
    (can_write_wire ⟨0x800, 8, fun _ => 0⟩).ID = 0x800 ∧
    (can_write ⟨0x800, 8, fun _ => 0⟩ 0).2 =
      [Action.driverWrite (can_write_wire ⟨0x800, 8, fun _ => 0⟩)] :=
  ⟨by decide, rfl, rfl⟩

/-- C7 (amended): the encoding performs no identifier validation at all:
for every frame the wire identifier equals the in-memory identifier
unchanged, and the write path always passes the frame to the driver. -/
theorem can_write_id_passthrough (m : can_message_t) (st : Nat) :
    (can_write_wire m).ID = m.id ∧
    (can_write m st).2 = [Action.driverWrite (can_write_wire m)] :=
  ⟨rfl, rfl⟩

/-- C2 counterexample: `can_write` consults no connection state; at this
concrete frame it invokes the driver write primitive and returns the raw
driver status (here 0x4000000, the driver's own "channel not
initialised" code), not a distinct "not connected" failure. -/
theorem can_write_disconnected_cex :
    Action.driverWrite (can_write_wire ⟨0x601, 8, fun _ => 0⟩) ∈
      (can_write ⟨0x601, 8, fun _ => 0⟩ 0x4000000).2 ∧
    (can_write ⟨0x601, 8, fun _ => 0⟩ 0x4000000).1 = 0x4000000 := by
  constructor
  · simp [can_write]
  · rfl

/-- C2 (amended): `can_write` never checks `is_can_initialised`; for
every frame and every driver status it invokes the driver write
primitive exactly once and passes the driver's status straight back
(cast to Uint32). -/
theorem can_write_always_calls_driver (m : can_message_t) (st : Nat) :
    (can_write m st).2 = [Action.driverWrite (can_write_wire m)] ∧
    (can_write m st).1 = st % 2 ^ 32 :=
  ⟨rfl, rfl⟩

/-- C9: for every 8-bit node id, the SDO write builds a frame whose
identifier lies in 0x600-0x67F, and node ids above 0x7F are reduced
modulo 0x7F before the 0x600 base is added. -/
theorem write_sdo_id_in_range (data_type node_id : Nat) (junk : Fin 8 → Nat)
    (h : node_id < 2 ^ 8) :
    0x600 ≤ (write_sdo_msg data_type node_id junk).ID ∧
    (write_sdo_msg data_type node_id junk).ID ≤ 0x67F ∧
    (0x7F < node_id → (write_sdo_msg data_type node_id junk).ID = 0x600 + node_id % 0x7F) := by
  have hmod : node_id % 2 ^ 8 = node_id := Nat.mod_eq_of_lt h
  simp only [write_sdo_msg, hmod]
  split <;> omega

theorem write_sdo_id_in_range_witness :
    ((0x85 : Nat) < 2 ^ 8 ∧ (0x7F : Nat) < 0x85) ∧
    (write_sdo_msg 4 0x85 (fun _ => 0)).ID = 0x600 + 0x85 % 0x7F :=
  ⟨by decide, (write_sdo_id_in_range 4 0x85 (fun _ => 0) (by decide)).2.2 (by decide)⟩

/-- C10: with a NULL core pointer, can_init, can_deinit, can_quit and
can_set_baud_rate return without touching state or calling the driver,
and is_can_initialised reports false. -/
theorem null_core_noop (command : Nat) :
    can_init none = (none, []) ∧
    can_deinit none = (none, []) ∧
    can_quit none = (none, []) ∧
    can_set_baud_rate command none = (none, []) ∧
    is_can_initialised none = false :=
  ⟨rfl, rfl, rfl, rfl, rfl⟩

/-- C5: for every new rate and every state, `can_set_baud_rate` stores
the new rate; if the channel is open it also releases the handle and
resets the state to disconnected (status cleared to 0), and if it is
already disconnected it changes nothing but the stored rate and performs
no driver call. -/
theorem can_set_baud_rate_spec (core : core_t) (command : Nat) (h : command < 2 ^ 8) :
    (can_set_baud_rate command (some core)).1 = some
      { core with baud_rate := command,
                  is_can_initialised := false,
                  can_status := if core.is_can_initialised then 0 else core.can_status } ∧
    (can_set_baud_rate command (some core)).2 =
      (if core.is_can_initialised then [Action.driverClose] else []) ∧
    (core.is_can_initialised = false →
      (can_set_baud_rate command (some core)) = (some { core with baud_rate := command }, [])) := by
  have hmod : command % 2 ^ 8 = command := Nat.mod_eq_of_lt h
  cases core with
  | mk ir ic b s =>
      cases ic <;>
        simp [can_set_baud_rate, can_deinit, is_can_initialised, hmod] <;> omega

theorem can_set_baud_rate_spec_witness :
    ((5 : Nat) < 2 ^ 8) ∧
    (can_set_baud_rate 5 (some ⟨true, true, 3, 7⟩)).1 = some ⟨true, false, 5, 0⟩ ∧
    (can_set_baud_rate 5 (some ⟨true, true, 3, 7⟩)).2 = [Action.driverClose] :=
  ⟨by decide,
   (can_set_baud_rate_spec ⟨true, true, 3, 7⟩ 5 (by decide)).1,
   (can_set_baud_rate_spec ⟨true, true, 3, 7⟩ 5 (by decide)).2.1⟩

/-- C8: the monitor sets the stored baud-rate index to 3 before entering
its loop, and (when running and not yet initialised) its first open
attempt uses PCAN_BAUD_250K, the rate of index 3. -/
theorem monitor_default_baud (core : core_t) (r r2 : DriverResp)
    (hrun : core.is_running = true) (hinit : core.is_can_initialised = false) :
    (monitorStart core).core.baud_rate = 3 ∧
    Action.driverOpen PCAN_BAUD_250K ∈
      (monitorStep r2 (monitorIter r 1 (monitorStart core))).2 := by
  refine ⟨rfl, ?_⟩
  simp [monitorStart, monitorIter, monitorStep, is_can_initialised, hrun, hinit,
        select_baud_rate]
  split <;> simp

theorem monitor_default_baud_witness :
    (monitorStart ⟨true, false, 9, 4⟩).core.baud_rate = 3 ∧
    Action.driverOpen PCAN_BAUD_250K ∈
      (monitorStep ⟨1, 0⟩ (monitorIter ⟨1, 0⟩ 1 (monitorStart ⟨true, false, 9, 4⟩))).2 :=
  monitor_default_baud ⟨true, false, 9, 4⟩ ⟨1, 0⟩ ⟨1, 0⟩ rfl rfl

/-- Auxiliary: the switch agrees with the 14-entry table on indices
0-13. -/
theorem select_baud_rate_table :
    ∀ i : Fin 14, select_baud_rate i.val = baud_table.getD i.val 0 := by decide

/-- Auxiliary: every monitor step taken from the inner test while
uninitialised performs an open attempt at the rate selected from the
stored index. -/
theorem monitor_open_action (core : core_t) (r : DriverResp)
    (hd : core.is_can_initialised = false) :
    Action.driverOpen (select_baud_rate core.baud_rate) ∈
      (monitorStep r ⟨core, Loc.innerTest⟩).2 := by
  simp [monitorStep, is_can_initialised, hd]
  split <;> simp

/-- C1 counterexample: with stored index 14 the open attempt uses
PCAN_BAUD_250K (the default shares case 3), not PCAN_BAUD_5K (index
13) as the claim would require. -/
theorem monitor_open_clamp_cex :
    Action.driverOpen PCAN_BAUD_5K ∉
      (monitorStep ⟨1, 0⟩ ⟨⟨true, false, 14, 0⟩, Loc.innerTest⟩).2 ∧
    Action.driverOpen PCAN_BAUD_250K ∈
      (monitorStep ⟨1, 0⟩ ⟨⟨true, false, 14, 0⟩, Loc.innerTest⟩).2 := by decide

/-- C1 (amended): every open attempt of the monitor uses the switch over
the stored index; indices 0-13 select the corresponding table entry,
while every index above 13 falls into the default branch shared with
case 3 and selects PCAN_BAUD_250K. -/
theorem monitor_open_uses_table_rate (core : core_t) (r : DriverResp)
    (hd : core.is_can_initialised = false) :
    Action.driverOpen (select_baud_rate core.baud_rate) ∈
      (monitorStep r ⟨core, Loc.innerTest⟩).2 ∧
    (core.baud_rate ≤ 13 →
      select_baud_rate core.baud_rate = baud_table.getD core.baud_rate 0) ∧
    (13 < core.baud_rate → select_baud_rate core.baud_rate = PCAN_BAUD_250K) := by
  refine ⟨?_, ?_, ?_⟩
  · exact monitor_open_action core r hd
  · intro hle
    exact select_baud_rate_table ⟨core.baud_rate, by omega⟩
  · intro hgt
    obtain ⟨m, hm⟩ : ∃ m, core.baud_rate = m + 14 := ⟨core.baud_rate - 14, by omega⟩
    rw [hm]
    rfl

theorem monitor_open_uses_table_rate_witness :
    (⟨true, false, 5, 0⟩ : core_t).is_can_initialised = false ∧
    (Action.driverOpen (select_baud_rate 5) ∈
       (monitorStep ⟨1, 0⟩ ⟨⟨true, false, 5, 0⟩, Loc.innerTest⟩).2 ∧
     ((5 : Nat) ≤ 13 → select_baud_rate 5 = baud_table.getD 5 0) ∧
     ((13 : Nat) < 5 → select_baud_rate 5 = PCAN_BAUD_250K)) :=
  ⟨rfl, monitor_open_uses_table_rate ⟨true, false, 5, 0⟩ ⟨1, 0⟩ rfl⟩

/-- Auxiliary: while disconnected and with every open attempt failing,
the monitor never leaves the inner retry loop: the control location
stays at the inner test and the channel stays uninitialised, whatever
`is_running` says. -/
theorem monitor_retry_stuck (r : DriverResp) (hfail : r.initStatus ≠ 0) :
    ∀ (n : Nat) (core : core_t), core.is_can_initialised = false →
      (monitorIter r n ⟨core, Loc.innerTest⟩).loc = Loc.innerTest ∧
      (monitorIter r n ⟨core, Loc.innerTest⟩).core.is_can_initialised = false := by
  intro n
  induction n with
  | zero => exact fun core h => ⟨rfl, h⟩
  | succ n ih =>
      intro core h
      have hcond : (Nat.land r.initStatus PCAN_ERROR_OK == r.initStatus) = false := by
        rw [land_ok_eq_zero]
        exact beq_eq_false_iff_ne.mpr (Ne.symm hfail)
      have hstep : (monitorStep r ⟨core, Loc.innerTest⟩).1 =
          ⟨{ core with can_status := r.initStatus }, Loc.innerTest⟩ := by
        simp only [monitorStep, is_can_initialised, h, Bool.false_eq_true, if_false, hcond]
      simp only [monitorIter]
      rw [hstep]
      exact ih { core with can_status := r.initStatus } h

/-- C3 counterexample: with the stop flag already cleared but the
channel disconnected and the hardware absent (every open attempt
failing), the monitor has still not exited after five ticks: the inner
retry loop never reads `is_running`. -/
theorem monitor_stop_flag_cex :
    (⟨false, false, 3, 0⟩ : core_t).is_running = false ∧
    (monitorIter ⟨1, 0⟩ 5 ⟨⟨false, false, 3, 0⟩, Loc.innerTest⟩).loc ≠ Loc.exited := by
  decide

/-- C3 (amended): the stop flag is observed within one tick only in the
connected state: from a connected configuration with `is_running`
false the loop exits after completing its current tick, but from a
disconnected configuration whose open attempts keep failing the loop
stays in the inner retry loop forever, never checking the stop flag. -/
theorem monitor_stop_flag_behaviour
    (c : core_t) (r : DriverResp) (hconn : c.is_can_initialised = true)
    (hstop : c.is_running = false)
    (c' : core_t) (r' : DriverResp) (hdisc : c'.is_can_initialised = false)
    (hfail : r'.initStatus ≠ 0) :
    (monitorIter r 2 ⟨c, Loc.innerTest⟩).loc = Loc.exited ∧
    ∀ n, (monitorIter r' n ⟨c', Loc.innerTest⟩).loc = Loc.innerTest := by
  constructor
  · show (monitorIter r 1 (monitorStep r ⟨c, Loc.innerTest⟩).1).loc = Loc.exited
    have h1 : (monitorStep r ⟨c, Loc.innerTest⟩).1.loc = Loc.outerTest ∧
        (monitorStep r ⟨c, Loc.innerTest⟩).1.core.is_running = c.is_running := by
      simp [monitorStep, is_can_initialised, hconn]
      split <;> simp
    obtain ⟨hl, hr⟩ := h1
    show (monitorStep r (monitorStep r ⟨c, Loc.innerTest⟩).1).1.loc = Loc.exited
    rcases hc2 : (monitorStep r ⟨c, Loc.innerTest⟩).1 with ⟨core2, loc2⟩
    rw [hc2] at hl hr
    subst hl
    simp at hr
    simp [monitorStep, hr, hstop]
  · exact fun n => (monitor_retry_stuck r' hfail n c' hdisc).1

theorem monitor_stop_flag_behaviour_witness :
    (monitorIter ⟨0, 0⟩ 2 ⟨⟨false, true, 3, 0⟩, Loc.innerTest⟩).loc = Loc.exited ∧
    (monitorIter ⟨1, 0⟩ 100 ⟨⟨false, false, 3, 0⟩, Loc.innerTest⟩).loc = Loc.innerTest :=
  ⟨(monitor_stop_flag_behaviour ⟨false, true, 3, 0⟩ ⟨0, 0⟩ rfl rfl
      ⟨false, false, 3, 0⟩ ⟨1, 0⟩ rfl (by decide)).1,
   (monitor_stop_flag_behaviour ⟨false, true, 3, 0⟩ ⟨0, 0⟩ rfl rfl
      ⟨false, false, 3, 0⟩ ⟨1, 0⟩ rfl (by decide)).2 100⟩

/-- C4: a connected monitor step that polls the hardware-removed status
(PCAN_ERROR_ILLHW) tears the connection down: afterwards the channel
is uninitialised, the stored status is reset to 0, the handle is
released, the removal diagnostic is logged, control returns to the
outer test, and (when still running) the loop is attempting open again
two steps later. -/
theorem monitor_illhw_teardown (c : core_t) (r : DriverResp)
    (hconn : c.is_can_initialised = true) (hill : r.pollStatus = PCAN_ERROR_ILLHW) :
    (monitorStep r ⟨c, Loc.innerTest⟩).1.core.is_can_initialised = false ∧
    (monitorStep r ⟨c, Loc.innerTest⟩).1.core.can_status = 0 ∧
    (monitorStep r ⟨c, Loc.innerTest⟩).1.loc = Loc.outerTest ∧
    Action.driverClose ∈ (monitorStep r ⟨c, Loc.innerTest⟩).2 ∧
    Action.log LogLevel.warning "CAN de-initialised: USB-dongle removed?" ∈
      (monitorStep r ⟨c, Loc.innerTest⟩).2 ∧
    (c.is_running = true → ∀ r2 r3 : DriverResp,
      Action.driverOpen (select_baud_rate c.baud_rate) ∈
        (monitorStep r3 (monitorStep r2 (monitorStep r ⟨c, Loc.innerTest⟩).1).1).2) := by
  have hstep : monitorStep r ⟨c, Loc.innerTest⟩ =
      (⟨{ c with can_status := 0, is_can_initialised := false }, Loc.outerTest⟩,
       [Action.driverGetStatus, Action.driverClose,
        Action.log LogLevel.warning "CAN de-initialised: USB-dongle removed?",
        Action.printPrompt, Action.delay 10]) := by
    simp [monitorStep, is_can_initialised, hconn, hill]
  rw [hstep]
  refine ⟨rfl, rfl, rfl, by simp, by simp, ?_⟩
  intro hrun r2 r3
  have h2 : monitorStep r2
      (⟨{ c with can_status := 0, is_can_initialised := false }, Loc.outerTest⟩ : MonitorConfig) =
      (⟨{ c with can_status := 0, is_can_initialised := false }, Loc.innerTest⟩, []) := by
    simp [monitorStep, hrun]
  rw [h2]
  exact monitor_open_action { c with can_status := 0, is_can_initialised := false } r3 rfl

theorem monitor_illhw_teardown_witness :
    (monitorStep ⟨0, 0x01400⟩ ⟨⟨true, true, 7, 9⟩, Loc.innerTest⟩).1.core.is_can_initialised = false ∧
    (monitorStep ⟨0, 0x01400⟩ ⟨⟨true, true, 7, 9⟩, Loc.innerTest⟩).1.core.can_status = 0 ∧
    Action.driverOpen (select_baud_rate 7) ∈
      (monitorStep ⟨1, 0⟩ (monitorStep ⟨1, 0⟩
        (monitorStep ⟨0, 0x01400⟩ ⟨⟨true, true, 7, 9⟩, Loc.innerTest⟩).1).1).2 :=
  ⟨(monitor_illhw_teardown ⟨true, true, 7, 9⟩ ⟨0, 0x01400⟩ rfl rfl).1,
   (monitor_illhw_teardown ⟨true, true, 7, 9⟩ ⟨0, 0x01400⟩ rfl rfl).2.1,
   (monitor_illhw_teardown ⟨true, true, 7, 9⟩ ⟨0, 0x01400⟩ rfl rfl).2.2.2.2.2
     rfl ⟨1, 0⟩ ⟨1, 0⟩⟩

end CANopenTerm
